import Mathlib

/-!
Shallow embedding of `src/window.py` (package `amgui`): the `Icon` image-list
wrapper and the `Window` lifecycle (`__init__`, `_init_glfw`, `_draw`,
`_glfw_loop`).  Every call into the external libraries (glfw, imgui, OpenGL,
ctypes, PIL, os, print) is recorded as an event in a trace, in program order;
the results of the external calls are supplied by an `Env` oracle.  The loop
is run with explicit fuel: a run is `none` when the window is not closed
within the fuel, mirroring a loop that is still running.
-/

namespace Amgui

/-- The `Icon` wrapper of `window.py`: `_images` holds the decoded image
buffers, in the order of the paths they were decoded from. -/
structure Icon (α : Type) where
  images : List α
  deriving DecidableEq

/-- The `Icon.glfw_images` property: returns `self._images`. -/
def Icon.glfw_images {α : Type} (i : Icon α) : List α :=
  i.images

/-- `Icon.__init__`: starts from an empty `_images` list and, for each
`icon_path` of `ordered_icon_paths` in order, appends `Image.open(icon_path)`.
The second component is the ordered list of arguments passed to `Image.open`,
i.e. the decode-call trace. -/
def Icon.ofPaths {α : Type} (imageOpen : String → α) (ordered_icon_paths : List String) :
    Icon α × List String :=
  let st := ordered_icon_paths.foldl (fun acc p => (acc.1 ++ [imageOpen p], acc.2 ++ [p])) ([], [])
  (⟨st.1⟩, st.2)

/-- One observable step taken by `window.py`: each constructor corresponds to
one call into an external library (or to one of the four lifecycle hooks of
the `Window` class), recorded in program order. -/
inductive Ev where
  | glfwInit
  | logCritical (msg : String)
  | exitCall (code : Nat)
  | setAppUserModelID (appId : String)
  | windowHint (hint : String) (value : Int)
  | createWindow (width : Int) (height : Int) (title : String)
  | makeContextCurrent (handle : Option Nat)
  | setWindowIcon (handle : Option Nat) (count : Nat) (images : List String)
  | imguiCreateContext
  | makedirs (dir : String)
  | printOut (s : String)
  | setIniFileName (p : Option String)
  | loadIni (p : String)
  | newRenderer (handle : Option Nat)
  | glClearColor
  | setRefreshCallback
  | hookPreInit
  | hookPostInit
  | hookPreExitLoop
  | hookPostExitLoop
  | pollEvents
  | processInputs
  | imguiNewFrame
  | userDraw
  | glClear
  | imguiRender
  | rendererRender
  | renderAttrError
  | swapBuffers
  | saveIni (p : String)
  | rendererShutdown
  | glfwTerminate
  deriving DecidableEq

/-- How a run of the `Window` lifecycle ends: normal return, `exit(code)`,
or an uncaught Python exception propagating out. -/
inductive Outcome where
  | ok
  | exited (code : Nat)
  | raised (exn : String)
  deriving DecidableEq

/-- The class attributes of `Window` that subclasses may override. -/
structure Config where
  windowTitle : String
  windowWidth : Int
  windowHeight : Int
  windowIcon : Option (Icon String)
  windowIdUnique : String
  windowIdPersistent : String
  groupUniqueWindowsInTaskbar : Bool
  imguiUseIni : Bool
  imguiIniDir : String
  glfwContextVersionMajor : Int
  glfwContextVersionMinor : Int
  glfwOpenglProfile : Int

/-- Oracle giving the behaviour of the external libraries during one run:
whether `glfw.init()` succeeds, whether `ctypes.windll` exists (it does only
on Windows; elsewhere the attribute access raises `AttributeError`), the
handle returned by `glfw.create_window` (`none` models a null/falsy handle),
and per-iteration results of `glfw.window_should_close`,
`imgui.get_io().want_save_ini_settings` and whether
`self._renderer.render(...)` raises `AttributeError`. -/
structure Env where
  glfwInitOk : Bool
  windllAvailable : Bool
  createWindowHandle : Option Nat
  shouldClose : Nat → Bool
  wantSaveIni : Nat → Bool
  renderRaises : Nat → Bool

/-- `Window._imgui_ini_path`: the string of `_IMGUI_INI_DIR / (persistent id
followed by the .ini extension)`. -/
def imguiIniPath (cfg : Config) : String :=
  cfg.imguiIniDir ++ "/" ++ cfg.windowIdPersistent ++ ".ini"

/-- The id string passed to `SetCurrentProcessExplicitAppUserModelID`:
the persistent id when `_GROUP_UNIQUE_WINDOWS_IN_TASKBAR`, else the unique
id. -/
def appUserModelID (cfg : Config) : String :=
  if cfg.groupUniqueWindowsInTaskbar then cfg.windowIdPersistent else cfg.windowIdUnique

/-- The four `glfw.window_hint` calls of `_init_glfw`, in order. -/
def hintEvents (cfg : Config) : List Ev :=
  [Ev.windowHint "CONTEXT_VERSION_MAJOR" cfg.glfwContextVersionMajor,
   Ev.windowHint "CONTEXT_VERSION_MINOR" cfg.glfwContextVersionMinor,
   Ev.windowHint "OPENGL_PROFILE" cfg.glfwOpenglProfile,
   Ev.windowHint "OPENGL_FORWARD_COMPAT" 1]

/-- `glfw.set_window_icon(window, len(images), images)` is called only when
the class attribute `_WINDOW_ICON` is not `None`. -/
def iconEvents (cfg : Config) (handle : Option Nat) : List Ev :=
  match cfg.windowIcon with
  | some ic => [Ev.setWindowIcon handle ic.glfw_images.length ic.glfw_images]
  | none => []

/-- The ini branch of `_init_glfw`: when `_IMGUI_USE_INI`, the path is
printed, stored in `imgui.get_io().ini_file_name` and the settings are loaded
from disk; otherwise `ini_file_name` is cleared to `None`. -/
def iniEvents (cfg : Config) : List Ev :=
  if cfg.imguiUseIni then
    [Ev.printOut (imguiIniPath cfg),
     Ev.setIniFileName (some (imguiIniPath cfg)),
     Ev.loadIni (imguiIniPath cfg)]
  else
    [Ev.setIniFileName none]

/-- Trace of `_init_glfw` when `glfw.init()` returns a falsy value: log
critical and `exit(1)`. -/
def initFailTrace : List Ev :=
  [Ev.glfwInit, Ev.logCritical "Could not initialize OpenGL context", Ev.exitCall 1]

/-- Trace of `_init_glfw` up to the `ctypes.windll.shell32` attribute access
when that access raises `AttributeError` (any non-Windows platform). -/
def noWindllTrace : List Ev :=
  [Ev.glfwInit]

/-- Trace of `_init_glfw` from `glfw.init()` through `glfw.create_window`,
`glfw.make_context_current` and the optional `glfw.set_window_icon`: the part
executed before the `if not window` check. -/
def preTrace (cfg : Config) (handle : Option Nat) : List Ev :=
  Ev.glfwInit :: Ev.setAppUserModelID (appUserModelID cfg) ::
    (hintEvents cfg ++
      [Ev.createWindow cfg.windowWidth cfg.windowHeight cfg.windowTitle,
       Ev.makeContextCurrent handle] ++
      iconEvents cfg handle)

/-- Trace of `_init_glfw` when `glfw.create_window` returns a null handle:
after the pre-check calls, `glfw.terminate()`, log critical and `exit(1)`. -/
def nullWinTrace (cfg : Config) : List Ev :=
  preTrace cfg none ++
    [Ev.glfwTerminate, Ev.logCritical "Could not initialize Window", Ev.exitCall 1]

/-- Trace of a fully successful `_init_glfw`: pre-check calls, then
`imgui.create_context()`, `os.makedirs(_IMGUI_INI_DIR, exist_ok=True)`, the
ini branch, `GlfwRenderer(window)` and `gl.glClearColor`. -/
def okSetupTrace (cfg : Config) (handle : Option Nat) : List Ev :=
  preTrace cfg handle ++
    (Ev.imguiCreateContext :: Ev.makedirs cfg.imguiIniDir ::
      (iniEvents cfg ++ [Ev.newRenderer handle, Ev.glClearColor]))

/-- `Window._init_glfw`: trace of external calls plus how the method ends.
`Outcome.ok` corresponds to returning the `(window, renderer)` pair. -/
def initGlfw (cfg : Config) (env : Env) : List Ev × Outcome :=
  match env.glfwInitOk with
  | false => (initFailTrace, Outcome.exited 1)
  | true =>
    match env.windllAvailable with
    | false => (noWindllTrace, Outcome.raised "AttributeError")
    | true =>
      match env.createWindowHandle with
      | none => (nullWinTrace cfg, Outcome.exited 1)
      | some w => (okSetupTrace cfg (some w), Outcome.ok)

/-- `Window._draw` at draw call `k`: `imgui.new_frame()`, the subclass
`draw()`, `gl.glClearColor`, `gl.glClear`, `imgui.render()`, then
`self._renderer.render(imgui.get_draw_data())` inside a `try` that swallows
`AttributeError`, then `glfw.swap_buffers`. -/
def drawTrace (env : Env) (k : Nat) : List Ev :=
  [Ev.imguiNewFrame, Ev.userDraw, Ev.glClearColor, Ev.glClear, Ev.imguiRender] ++
    (if env.renderRaises k then [Ev.renderAttrError] else [Ev.rendererRender]) ++
    [Ev.swapBuffers]

/-- One iteration of the `while` body of `_glfw_loop`: `glfw.poll_events()`,
`self._renderer.process_inputs()`, a debug print when imgui wants to save its
settings, then `self._draw()`. -/
def loopIter (env : Env) (k : Nat) : List Ev :=
  Ev.pollEvents :: Ev.processInputs ::
    ((if env.wantSaveIni k then [Ev.printOut "wants to save!"] else []) ++ drawTrace env k)

/-- The `while not glfw.window_should_close(self.window)` loop, checking the
condition before each iteration, run with explicit fuel; `none` means the
window was not closed within the fuel (the loop is still running). -/
def glfwLoopIters (env : Env) : Nat → Nat → Option (List Ev)
  | 0, _ => none
  | fuel + 1, k =>
    if env.shouldClose k then some []
    else (glfwLoopIters env fuel (k + 1)).map (fun rest => loopIter env k ++ rest)

/-- Index of the first loop-condition check at which
`glfw.window_should_close` holds, looking at most `fuel` checks ahead from
check `k`. -/
def firstCloseIdx (env : Env) : Nat → Nat → Option Nat
  | 0, _ => none
  | fuel + 1, k => if env.shouldClose k then some k else firstCloseIdx env fuel (k + 1)

/-- Concatenated trace of the loop iterations `k`, `k + 1`, ..., `k + m - 1`. -/
def itersTrace (env : Env) (k m : Nat) : List Ev :=
  ((List.range m).map (fun j => loopIter env (k + j))).flatten

/-- Trace of the code after the `while` loop of `_glfw_loop`:
`self._pre_exit_loop()` (whose default body saves the imgui ini settings to
`_imgui_ini_path()`), `self._renderer.shutdown()`, `glfw.terminate()`. -/
def teardownTrace (cfg : Config) : List Ev :=
  [Ev.hookPreExitLoop, Ev.saveIni (imguiIniPath cfg), Ev.rendererShutdown, Ev.glfwTerminate]

/-- `Window.__init__`: `self._pre_init()`, then `_init_glfw`, then
`glfw.set_window_refresh_callback`, `self._post_init()` and `_glfw_loop`.
When `_init_glfw` exits or raises, the run ends there with that outcome. -/
def windowRun (cfg : Config) (env : Env) (fuel : Nat) : Option (List Ev × Outcome) :=
  match initGlfw cfg env with
  | (t, Outcome.ok) =>
    match glfwLoopIters env fuel 0 with
    | none => none
    | some lt =>
      some (Ev.hookPreInit ::
              (t ++ Ev.setRefreshCallback :: Ev.hookPostInit :: (lt ++ teardownTrace cfg)),
            Outcome.ok)
  | (t, o) => some (Ev.hookPreInit :: t, o)

/-- Events that can occur inside a loop iteration of `_glfw_loop`. -/
def isLoopEv : Ev → Bool
  | Ev.pollEvents => true
  | Ev.processInputs => true
  | Ev.printOut s => s == "wants to save!"
  | Ev.imguiNewFrame => true
  | Ev.userDraw => true
  | Ev.glClearColor => true
  | Ev.glClear => true
  | Ev.imguiRender => true
  | Ev.rendererRender => true
  | Ev.renderAttrError => true
  | Ev.swapBuffers => true
  | _ => false

/-- The four lifecycle hooks of the `Window` class. -/
def isHook : Ev → Bool
  | Ev.hookPreInit => true
  | Ev.hookPostInit => true
  | Ev.hookPreExitLoop => true
  | Ev.hookPostExitLoop => true
  | _ => false

/-- Recognises `imgui.load_ini_settings_from_disk` events. -/
def isLoadIni : Ev → Bool
  | Ev.loadIni _ => true
  | _ => false

/-- A write-like event is acceptable exactly when it targets the artifacts
named by the spec: the single ini settings file, its directory, the two debug
prints on stdout, and the two critical log messages of the fatal paths.
Non-writing events are always acceptable. -/
def writeEvOk (cfg : Config) : Ev → Bool
  | Ev.saveIni p => p == imguiIniPath cfg
  | Ev.loadIni p => p == imguiIniPath cfg
  | Ev.makedirs d => d == cfg.imguiIniDir
  | Ev.printOut s => s == imguiIniPath cfg || s == "wants to save!"
  | Ev.logCritical m =>
      m == "Could not initialize OpenGL context" || m == "Could not initialize Window"
  | _ => true

/-- Whether an outcome is a process exit with any code. -/
def isExitedAny : Outcome → Bool
  | Outcome.exited _ => true
  | _ => false

/-- Whether an outcome is a process exit with code 1. -/
def isExited1 : Outcome → Bool
  | Outcome.exited 1 => true
  | _ => false

/-- The default class attributes of `Window` (the uuid4 value is an arbitrary
representative, it is computed once at class-definition time). -/
def defaultConfig : Config :=
  { windowTitle := ""
    windowWidth := 1280
    windowHeight := 720
    windowIcon := none
    windowIdUnique := "c4c8c07e-5b3f-4f67-9d2a-0c2f6d1a9b11"
    windowIdPersistent := "default"
    groupUniqueWindowsInTaskbar := true
    imguiUseIni := true
    imguiIniDir := "/tmp/amgui"
    glfwContextVersionMajor := 3
    glfwContextVersionMinor := 3
    glfwOpenglProfile := 204801 }

/-- A subclass overriding `_IMGUI_USE_INI` to `False`. -/
def cfgNoIni : Config := { defaultConfig with imguiUseIni := false }

/-- A subclass setting a one-image `_WINDOW_ICON`. -/
def cfgIcon : Config := { defaultConfig with windowIcon := some ⟨["icon16 image data"]⟩ }

/-- An environment where everything succeeds and the window is closed at the
very first loop check. -/
def envOkQuick : Env :=
  { glfwInitOk := true
    windllAvailable := true
    createWindowHandle := some 1
    shouldClose := fun _ => true
    wantSaveIni := fun _ => false
    renderRaises := fun _ => false }

/-- Environment where `glfw.init()` fails. -/
def envInitFail : Env := { envOkQuick with glfwInitOk := false }

/-- Environment of a non-Windows platform: `ctypes.windll` does not exist. -/
def envNoWindll : Env := { envOkQuick with windllAvailable := false }

/-- Environment where `glfw.create_window` returns a null handle. -/
def envNullWindow : Env := { envOkQuick with createWindowHandle := none }

/-- Environment running exactly one loop iteration, in which
`self._renderer.render` raises `AttributeError`. -/
def envOneIter : Env :=
  { envOkQuick with
      shouldClose := fun k => decide (0 < k)
      renderRaises := fun _ => true }

theorem not_mem_of_all {α : Type} (l : List α) (p : α → Bool) (h : l.all p = true)
    (e : α) (hpe : p e = false) : e ∉ l := by
  intro hm
  have := List.all_eq_true.mp h e hm
  rw [hpe] at this
  cases this

theorem initGlfw_fail (cfg : Config) (env : Env) (h : env.glfwInitOk = false) :
    initGlfw cfg env = (initFailTrace, Outcome.exited 1) := by
  unfold initGlfw
  rw [h]

theorem initGlfw_noWindll (cfg : Config) (env : Env) (h1 : env.glfwInitOk = true)
    (h2 : env.windllAvailable = false) :
    initGlfw cfg env = (noWindllTrace, Outcome.raised "AttributeError") := by
  unfold initGlfw
  rw [h1, h2]

theorem initGlfw_nullWin (cfg : Config) (env : Env) (h1 : env.glfwInitOk = true)
    (h2 : env.windllAvailable = true) (h3 : env.createWindowHandle = none) :
    initGlfw cfg env = (nullWinTrace cfg, Outcome.exited 1) := by
  unfold initGlfw
  rw [h1, h2, h3]

theorem initGlfw_okCase (cfg : Config) (env : Env) (w : Nat) (h1 : env.glfwInitOk = true)
    (h2 : env.windllAvailable = true) (h3 : env.createWindowHandle = some w) :
    initGlfw cfg env = (okSetupTrace cfg (some w), Outcome.ok) := by
  unfold initGlfw
  rw [h1, h2, h3]

theorem windowRun_fail (cfg : Config) (env : Env) (fuel : Nat) (h : env.glfwInitOk = false) :
    windowRun cfg env fuel = some (Ev.hookPreInit :: initFailTrace, Outcome.exited 1) := by
  unfold windowRun
  rw [initGlfw_fail cfg env h]

theorem windowRun_noWindll (cfg : Config) (env : Env) (fuel : Nat) (h1 : env.glfwInitOk = true)
    (h2 : env.windllAvailable = false) :
    windowRun cfg env fuel = some (Ev.hookPreInit :: noWindllTrace, Outcome.raised "AttributeError") := by
  unfold windowRun
  rw [initGlfw_noWindll cfg env h1 h2]

theorem windowRun_nullWin (cfg : Config) (env : Env) (fuel : Nat) (h1 : env.glfwInitOk = true)
    (h2 : env.windllAvailable = true) (h3 : env.createWindowHandle = none) :
    windowRun cfg env fuel = some (Ev.hookPreInit :: nullWinTrace cfg, Outcome.exited 1) := by
  unfold windowRun
  rw [initGlfw_nullWin cfg env h1 h2 h3]

theorem windowRun_okSome (cfg : Config) (env : Env) (fuel : Nat) (w : Nat) (lt : List Ev)
    (h1 : env.glfwInitOk = true) (h2 : env.windllAvailable = true)
    (h3 : env.createWindowHandle = some w) (hl : glfwLoopIters env fuel 0 = some lt) :
    windowRun cfg env fuel =
      some (Ev.hookPreInit ::
        (okSetupTrace cfg (some w) ++ Ev.setRefreshCallback :: Ev.hookPostInit ::
          (lt ++ teardownTrace cfg)), Outcome.ok) := by
  unfold windowRun
  rw [initGlfw_okCase cfg env w h1 h2 h3, hl]

theorem windowRun_okNone (cfg : Config) (env : Env) (fuel : Nat) (w : Nat)
    (h1 : env.glfwInitOk = true) (h2 : env.windllAvailable = true)
    (h3 : env.createWindowHandle = some w) (hl : glfwLoopIters env fuel 0 = none) :
    windowRun cfg env fuel = none := by
  unfold windowRun
  rw [initGlfw_okCase cfg env w h1 h2 h3, hl]

theorem loopIter_all (env : Env) (k : Nat) : (loopIter env k).all isLoopEv = true := by
  by_cases hw : env.wantSaveIni k <;> by_cases hr : env.renderRaises k <;>
    simp [loopIter, drawTrace, hw, hr, isLoopEv]

theorem loopIters_mem (env : Env) :
    ∀ fuel k lt, glfwLoopIters env fuel k = some lt → ∀ e ∈ lt, isLoopEv e = true := by
  intro fuel
  induction fuel with
  | zero => intro k lt h; simp [glfwLoopIters] at h
  | succ n ih =>
    intro k lt h e he
    rw [glfwLoopIters] at h
    by_cases hc : env.shouldClose k
    · rw [if_pos hc] at h
      obtain rfl := Option.some.inj h
      cases he
    · rw [if_neg hc] at h
      obtain ⟨rest, hrest, rfl⟩ := Option.map_eq_some'.mp h
      rcases List.mem_append.mp he with hin | hin
      · exact List.all_eq_true.mp (loopIter_all env k) e hin
      · exact ih (k + 1) rest hrest e hin

theorem initFail_all_writeOk (cfg : Config) : initFailTrace.all (writeEvOk cfg) = true := by
  simp [initFailTrace, writeEvOk]

theorem noWindll_all_writeOk (cfg : Config) : noWindllTrace.all (writeEvOk cfg) = true := by
  simp [noWindllTrace, writeEvOk]

theorem preTrace_all_writeOk (cfg : Config) (w : Option Nat) :
    (preTrace cfg w).all (writeEvOk cfg) = true := by
  cases hic : cfg.windowIcon <;>
    simp [preTrace, hintEvents, iconEvents, hic, writeEvOk]

theorem nullWin_all_writeOk (cfg : Config) : (nullWinTrace cfg).all (writeEvOk cfg) = true := by
  simp [nullWinTrace, List.all_append, preTrace_all_writeOk, writeEvOk]

theorem okSetup_all_writeOk (cfg : Config) (w : Option Nat) :
    (okSetupTrace cfg w).all (writeEvOk cfg) = true := by
  by_cases hui : cfg.imguiUseIni <;>
    simp [okSetupTrace, List.all_append, preTrace_all_writeOk, iniEvents, hui, writeEvOk]

theorem teardown_all_writeOk (cfg : Config) : (teardownTrace cfg).all (writeEvOk cfg) = true := by
  simp [teardownTrace, writeEvOk]

theorem isLoopEv_writeOk (cfg : Config) (e : Ev) (h : isLoopEv e = true) :
    writeEvOk cfg e = true := by
  cases e <;> simp_all [isLoopEv, writeEvOk]

theorem initFail_no_hook : initFailTrace.all (fun e => !(isHook e)) = true := by
  simp [initFailTrace, isHook]

theorem noWindll_no_hook : noWindllTrace.all (fun e => !(isHook e)) = true := by
  simp [noWindllTrace, isHook]

theorem preTrace_no_hook (cfg : Config) (w : Option Nat) :
    (preTrace cfg w).all (fun e => !(isHook e)) = true := by
  cases hic : cfg.windowIcon <;>
    simp [preTrace, hintEvents, iconEvents, hic, isHook]

theorem nullWin_no_hook (cfg : Config) : (nullWinTrace cfg).all (fun e => !(isHook e)) = true := by
  rw [nullWinTrace, List.all_append, preTrace_no_hook]
  simp [isHook]

theorem okSetup_no_hook (cfg : Config) (w : Option Nat) :
    (okSetupTrace cfg w).all (fun e => !(isHook e)) = true := by
  rw [okSetupTrace, List.all_append, preTrace_no_hook]
  by_cases hui : cfg.imguiUseIni <;> simp [iniEvents, hui, isHook]

theorem isLoopEv_not_hook (e : Ev) (h : isLoopEv e = true) : isHook e = false := by
  cases e <;> simp_all [isLoopEv, isHook]

theorem okSetup_no_loadIni (cfg : Config) (w : Option Nat) (hui : cfg.imguiUseIni = false) :
    (okSetupTrace cfg w).all (fun e => !(isLoadIni e)) = true := by
  have hp : (preTrace cfg w).all (fun e => !(isLoadIni e)) = true := by
    cases hic : cfg.windowIcon <;>
      simp [preTrace, hintEvents, iconEvents, hic, isLoadIni]
  rw [okSetupTrace, List.all_append, hp]
  simp [iniEvents, hui, isLoadIni]

theorem isLoopEv_not_loadIni (e : Ev) (h : isLoopEv e = true) : isLoadIni e = false := by
  cases e <;> simp_all [isLoopEv, isLoadIni]

theorem itersTrace_zero (env : Env) (k : Nat) : itersTrace env k 0 = [] := by
  simp [itersTrace]

theorem itersTrace_succ (env : Env) (k m : Nat) :
    itersTrace env k (m + 1) = loopIter env k ++ itersTrace env (k + 1) m := by
  unfold itersTrace
  rw [List.range_succ_eq_map]
  simp only [List.map_cons, List.map_map, List.flatten_cons, Nat.add_zero]
  have hfg : ((fun j => loopIter env (k + j)) ∘ Nat.succ) = fun j => loopIter env (k + 1 + j) := by
    funext j
    simp only [Function.comp_apply]
    congr 1
    omega
  rw [hfg]

theorem firstCloseIdx_some (env : Env) :
    ∀ fuel k n, firstCloseIdx env fuel k = some n →
      k ≤ n ∧ n < k + fuel ∧ env.shouldClose n = true ∧
        ∀ j, k ≤ j → j < n → env.shouldClose j = false := by
  intro fuel
  induction fuel with
  | zero => intro k n h; simp [firstCloseIdx] at h
  | succ f ih =>
    intro k n h
    rw [firstCloseIdx] at h
    by_cases hc : env.shouldClose k
    · rw [if_pos hc] at h
      obtain rfl := Option.some.inj h
      exact ⟨Nat.le_refl _, by omega, hc, fun j hj1 hj2 => absurd (Nat.lt_of_lt_of_le hj2 hj1) (Nat.lt_irrefl j)⟩
    · rw [if_neg hc] at h
      obtain ⟨hk, hlt, hcl, hmin⟩ := ih (k + 1) n h
      refine ⟨by omega, by omega, hcl, fun j hj1 hj2 => ?_⟩
      rcases Nat.eq_or_lt_of_le hj1 with rfl | hj
      · exact Bool.eq_false_iff.mpr hc
      · exact hmin j hj hj2

theorem firstCloseIdx_none (env : Env) :
    ∀ fuel k, firstCloseIdx env fuel k = none →
      ∀ j, k ≤ j → j < k + fuel → env.shouldClose j = false := by
  intro fuel
  induction fuel with
  | zero => intro k _ j hj1 hj2; omega
  | succ f ih =>
    intro k h j hj1 hj2
    rw [firstCloseIdx] at h
    by_cases hc : env.shouldClose k
    · rw [if_pos hc] at h; cases h
    · rw [if_neg hc] at h
      rcases Nat.eq_or_lt_of_le hj1 with rfl | hj
      · exact Bool.eq_false_iff.mpr hc
      · exact ih (k + 1) h j hj (by omega)

theorem loopIters_eq_firstCloseIdx (env : Env) :
    ∀ fuel k, glfwLoopIters env fuel k =
      (firstCloseIdx env fuel k).map (fun n => itersTrace env k (n - k)) := by
  intro fuel
  induction fuel with
  | zero => intro k; rfl
  | succ f ih =>
    intro k
    rw [glfwLoopIters, firstCloseIdx]
    by_cases hc : env.shouldClose k
    · rw [if_pos hc, if_pos hc]
      simp [itersTrace_zero]
    · rw [if_neg hc, if_neg hc, ih (k + 1)]
      cases hfc : firstCloseIdx env f (k + 1) with
      | none => rfl
      | some n =>
        have hk1 : k + 1 ≤ n := (firstCloseIdx_some env f (k + 1) n hfc).1
        simp only [Option.map_some']
        congr 1
        have hm : n - k = (n - (k + 1)) + 1 := by omega
        rw [hm, itersTrace_succ]

theorem iconFold {α : Type} (imageOpen : String → α) :
    ∀ (ps : List String) (a : List α) (b : List String),
      ps.foldl (fun acc p => (acc.1 ++ [imageOpen p], acc.2 ++ [p])) (a, b) =
        (a ++ ps.map imageOpen, b ++ ps) := by
  intro ps
  induction ps with
  | nil => intro a b; simp
  | cons p ps ih =>
    intro a b
    simp only [List.foldl_cons]
    rw [ih]
    simp

theorem initGlfw_renderRaises (cfg : Config) (env : Env) (f : Nat → Bool) :
    initGlfw cfg { env with renderRaises := f } = initGlfw cfg env := rfl

theorem loopIters_isSome_renderRaises (env : Env) (f : Nat → Bool) :
    ∀ fuel k, (glfwLoopIters { env with renderRaises := f } fuel k).isSome
      = (glfwLoopIters env fuel k).isSome := by
  intro fuel
  induction fuel with
  | zero => intro k; rfl
  | succ n ih =>
    intro k
    rw [glfwLoopIters, glfwLoopIters]
    have hsc : ({ env with renderRaises := f } : Env).shouldClose = env.shouldClose := rfl
    rw [hsc]
    by_cases hc : env.shouldClose k
    · rw [if_pos hc, if_pos hc]
    · rw [if_neg hc, if_neg hc]
      have h1 := ih (k + 1)
      cases hof : glfwLoopIters { env with renderRaises := f } n (k + 1) <;>
        cases hog : glfwLoopIters env n (k + 1) <;> rw [hof, hog] at h1 <;> simp_all

/-- Claim C1: exactly two failure paths exist in window setup: failing
`glfw.init` and a null handle from `glfw.create_window`; each logs a critical
message and terminates the process via `exit(1)`, and no other setup step
terminates the process (any exit outcome of a run is one of these two, with
code 1). -/
theorem c1_setup_failure_paths (cfg : Config) (env : Env) (fuel : Nat) (t : List Ev) (o : Outcome)
    (h : windowRun cfg env fuel = some (t, o)) :
    (isExitedAny o = true ↔
      (env.glfwInitOk = false ∨
        (env.glfwInitOk = true ∧ env.windllAvailable = true ∧ env.createWindowHandle = none))) ∧
    isExitedAny o = isExited1 o ∧
    (isExited1 o = true → Ev.exitCall 1 ∈ t ∧
      (Ev.logCritical "Could not initialize OpenGL context" ∈ t ∨
       Ev.logCritical "Could not initialize Window" ∈ t)) ∧
    (env.glfwInitOk = false → Ev.logCritical "Could not initialize OpenGL context" ∈ t) ∧
    (env.glfwInitOk = true → env.windllAvailable = true → env.createWindowHandle = none →
      Ev.logCritical "Could not initialize Window" ∈ t) := by
  cases h1 : env.glfwInitOk
  · rw [windowRun_fail cfg env fuel h1] at h
    simp only [Option.some.injEq, Prod.mk.injEq] at h
    obtain ⟨rfl, rfl⟩ := h
    simp [isExitedAny, isExited1, initFailTrace]
  · cases h2 : env.windllAvailable
    · rw [windowRun_noWindll cfg env fuel h1 h2] at h
      simp only [Option.some.injEq, Prod.mk.injEq] at h
      obtain ⟨rfl, rfl⟩ := h
      simp [isExitedAny, isExited1, h1, h2]
    · cases h3 : env.createWindowHandle with
      | none =>
        rw [windowRun_nullWin cfg env fuel h1 h2 h3] at h
        simp only [Option.some.injEq, Prod.mk.injEq] at h
        obtain ⟨rfl, rfl⟩ := h
        simp [isExitedAny, isExited1, h1, h2, nullWinTrace, preTrace]
      | some w =>
        cases hl : glfwLoopIters env fuel 0 with
        | none => rw [windowRun_okNone cfg env fuel w h1 h2 h3 hl] at h; cases h
        | some lt =>
          rw [windowRun_okSome cfg env fuel w lt h1 h2 h3 hl] at h
          simp only [Option.some.injEq, Prod.mk.injEq] at h
          obtain ⟨rfl, rfl⟩ := h
          simp [isExitedAny, isExited1, h1, h2, h3]

/-- Witness for claim C1 at the failed-`glfw.init` environment. -/
theorem c1_setup_failure_paths_witness :
    (isExitedAny (Outcome.exited 1) = true ↔
      (envInitFail.glfwInitOk = false ∨
        (envInitFail.glfwInitOk = true ∧ envInitFail.windllAvailable = true ∧
          envInitFail.createWindowHandle = none))) ∧
    isExitedAny (Outcome.exited 1) = isExited1 (Outcome.exited 1) ∧
    (isExited1 (Outcome.exited 1) = true →
      Ev.exitCall 1 ∈ Ev.hookPreInit :: initFailTrace ∧
      (Ev.logCritical "Could not initialize OpenGL context" ∈ Ev.hookPreInit :: initFailTrace ∨
       Ev.logCritical "Could not initialize Window" ∈ Ev.hookPreInit :: initFailTrace)) ∧
    (envInitFail.glfwInitOk = false →
      Ev.logCritical "Could not initialize OpenGL context" ∈ Ev.hookPreInit :: initFailTrace) ∧
    (envInitFail.glfwInitOk = true → envInitFail.windllAvailable = true →
      envInitFail.createWindowHandle = none →
      Ev.logCritical "Could not initialize Window" ∈ Ev.hookPreInit :: initFailTrace) :=
  c1_setup_failure_paths defaultConfig envInitFail 0 (Ev.hookPreInit :: initFailTrace)
    (Outcome.exited 1) rfl

/-- Claim C2: for every completed `Window` construction, the four phases occur
in strict order: glfw initialization and window creation, then the imgui
context, then the poll/draw loop, and only after the loop has exited the
teardown (renderer shutdown, then glfw termination); the trace decomposes as
pre-init hook, the setup trace (whose definition fixes the in-setup order),
the refresh-callback registration and post-init hook, loop-only events, and
the teardown suffix. -/
theorem c2_phase_order (cfg : Config) (env : Env) (fuel : Nat) (t : List Ev)
    (h : windowRun cfg env fuel = some (t, Outcome.ok)) :
    (initGlfw cfg env).2 = Outcome.ok ∧
    (glfwLoopIters env fuel 0).isSome = true ∧
    t = Ev.hookPreInit ::
        ((initGlfw cfg env).1 ++ Ev.setRefreshCallback :: Ev.hookPostInit ::
          ((glfwLoopIters env fuel 0).getD [] ++ teardownTrace cfg)) ∧
    (initGlfw cfg env).1 = okSetupTrace cfg env.createWindowHandle ∧
    ((glfwLoopIters env fuel 0).getD []).all isLoopEv = true := by
  cases h1 : env.glfwInitOk
  · rw [windowRun_fail cfg env fuel h1] at h
    simp at h
  · cases h2 : env.windllAvailable
    · rw [windowRun_noWindll cfg env fuel h1 h2] at h
      simp at h
    · cases h3 : env.createWindowHandle with
      | none =>
        rw [windowRun_nullWin cfg env fuel h1 h2 h3] at h
        simp at h
      | some w =>
        cases hl : glfwLoopIters env fuel 0 with
        | none => rw [windowRun_okNone cfg env fuel w h1 h2 h3 hl] at h; cases h
        | some lt =>
          rw [windowRun_okSome cfg env fuel w lt h1 h2 h3 hl] at h
          simp only [Option.some.injEq, Prod.mk.injEq] at h
          obtain ⟨rfl, -⟩ := h
          rw [initGlfw_okCase cfg env w h1 h2 h3]
          exact ⟨rfl, rfl, rfl, rfl, List.all_eq_true.mpr (loopIters_mem env fuel 0 lt hl)⟩

/-- Witness for claim C2 at a run that closes at the first loop check. -/
theorem c2_phase_order_witness :
    (initGlfw defaultConfig envOkQuick).2 = Outcome.ok ∧
    (glfwLoopIters envOkQuick 1 0).isSome = true ∧
    (Ev.hookPreInit ::
        (okSetupTrace defaultConfig (some 1) ++ Ev.setRefreshCallback :: Ev.hookPostInit ::
          (([] : List Ev) ++ teardownTrace defaultConfig))) = Ev.hookPreInit ::
        ((initGlfw defaultConfig envOkQuick).1 ++ Ev.setRefreshCallback :: Ev.hookPostInit ::
          ((glfwLoopIters envOkQuick 1 0).getD [] ++ teardownTrace defaultConfig)) ∧
    (initGlfw defaultConfig envOkQuick).1 = okSetupTrace defaultConfig envOkQuick.createWindowHandle ∧
    ((glfwLoopIters envOkQuick 1 0).getD []).all isLoopEv = true :=
  c2_phase_order defaultConfig envOkQuick 1
    (Ev.hookPreInit ::
      (okSetupTrace defaultConfig (some 1) ++ Ev.setRefreshCallback :: Ev.hookPostInit ::
        (([] : List Ev) ++ teardownTrace defaultConfig))) rfl

/-- Claim C3 (code bug): the docstring of `_post_exit_loop` says it is called
after GLFW/imgui cleans up, but no code path ever invokes it: in every run its
count in the trace is zero, while the other three hooks each run exactly once
in a completed run. -/
theorem c3_post_exit_hook_never_invoked (cfg : Config) (env : Env) (fuel : Nat)
    (t : List Ev) (o : Outcome) (h : windowRun cfg env fuel = some (t, o)) :
    t.count Ev.hookPostExitLoop = 0 ∧
    (o = Outcome.ok → t.count Ev.hookPreInit = 1 ∧ t.count Ev.hookPostInit = 1 ∧
      t.count Ev.hookPreExitLoop = 1) := by
  cases h1 : env.glfwInitOk
  · rw [windowRun_fail cfg env fuel h1] at h
    simp only [Option.some.injEq, Prod.mk.injEq] at h
    obtain ⟨rfl, rfl⟩ := h
    exact ⟨by decide, by simp⟩
  · cases h2 : env.windllAvailable
    · rw [windowRun_noWindll cfg env fuel h1 h2] at h
      simp only [Option.some.injEq, Prod.mk.injEq] at h
      obtain ⟨rfl, rfl⟩ := h
      exact ⟨by decide, by simp⟩
    · cases h3 : env.createWindowHandle with
      | none =>
        rw [windowRun_nullWin cfg env fuel h1 h2 h3] at h
        simp only [Option.some.injEq, Prod.mk.injEq] at h
        obtain ⟨rfl, rfl⟩ := h
        have hnm : Ev.hookPostExitLoop ∉ nullWinTrace cfg :=
          not_mem_of_all _ _ (nullWin_no_hook cfg) _ rfl
        refine ⟨?_, by simp⟩
        rw [List.count_cons_of_ne (show Ev.hookPostExitLoop ≠ Ev.hookPreInit by decide),
          List.count_eq_zero.mpr hnm]
      | some w =>
        cases hl : glfwLoopIters env fuel 0 with
        | none => rw [windowRun_okNone cfg env fuel w h1 h2 h3 hl] at h; cases h
        | some lt =>
          rw [windowRun_okSome cfg env fuel w lt h1 h2 h3 hl] at h
          simp only [Option.some.injEq, Prod.mk.injEq] at h
          obtain ⟨rfl, -⟩ := h
          have hsu : ∀ e, isHook e = true → e ∉ okSetupTrace cfg (some w) := fun e he =>
            not_mem_of_all _ _ (okSetup_no_hook cfg (some w)) e (by simp [he])
          have hlt : ∀ e, isHook e = true → e ∉ lt := fun e he hm => by
            have hx := isLoopEv_not_hook e (loopIters_mem env fuel 0 lt hl e hm)
            rw [he] at hx
            cases hx
          constructor
          · rw [List.count_cons_of_ne (show Ev.hookPostExitLoop ≠ Ev.hookPreInit by decide),
              List.count_append, List.count_eq_zero.mpr (hsu Ev.hookPostExitLoop rfl),
              List.count_cons_of_ne (show Ev.hookPostExitLoop ≠ Ev.setRefreshCallback by decide),
              List.count_cons_of_ne (show Ev.hookPostExitLoop ≠ Ev.hookPostInit by decide),
              List.count_append, List.count_eq_zero.mpr (hlt Ev.hookPostExitLoop rfl),
              List.count_eq_zero.mpr
                (show Ev.hookPostExitLoop ∉ teardownTrace cfg by simp [teardownTrace])]
          · intro _
            refine ⟨?_, ?_, ?_⟩
            · rw [List.count_cons_self, List.count_append,
                List.count_eq_zero.mpr (hsu Ev.hookPreInit rfl),
                List.count_cons_of_ne (show Ev.hookPreInit ≠ Ev.setRefreshCallback by decide),
                List.count_cons_of_ne (show Ev.hookPreInit ≠ Ev.hookPostInit by decide),
                List.count_append, List.count_eq_zero.mpr (hlt Ev.hookPreInit rfl),
                List.count_eq_zero.mpr
                  (show Ev.hookPreInit ∉ teardownTrace cfg by simp [teardownTrace])]
            · rw [List.count_cons_of_ne (show Ev.hookPostInit ≠ Ev.hookPreInit by decide),
                List.count_append, List.count_eq_zero.mpr (hsu Ev.hookPostInit rfl),
                List.count_cons_of_ne (show Ev.hookPostInit ≠ Ev.setRefreshCallback by decide),
                List.count_cons_self,
                List.count_append, List.count_eq_zero.mpr (hlt Ev.hookPostInit rfl),
                List.count_eq_zero.mpr
                  (show Ev.hookPostInit ∉ teardownTrace cfg by simp [teardownTrace])]
            · rw [List.count_cons_of_ne (show Ev.hookPreExitLoop ≠ Ev.hookPreInit by decide),
                List.count_append, List.count_eq_zero.mpr (hsu Ev.hookPreExitLoop rfl),
                List.count_cons_of_ne (show Ev.hookPreExitLoop ≠ Ev.setRefreshCallback by decide),
                List.count_cons_of_ne (show Ev.hookPreExitLoop ≠ Ev.hookPostInit by decide),
                List.count_append, List.count_eq_zero.mpr (hlt Ev.hookPreExitLoop rfl),
                teardownTrace, List.count_cons_self,
                List.count_eq_zero.mpr
                  (show Ev.hookPreExitLoop ∉
                    [Ev.saveIni (imguiIniPath cfg), Ev.rendererShutdown, Ev.glfwTerminate]
                    by simp)]

/-- Witness for claim C3 at a completed default-configuration run. -/
theorem c3_post_exit_hook_never_invoked_witness :
    (Ev.hookPreInit ::
        (okSetupTrace defaultConfig (some 1) ++ Ev.setRefreshCallback :: Ev.hookPostInit ::
          (([] : List Ev) ++ teardownTrace defaultConfig))).count Ev.hookPostExitLoop = 0 ∧
    (Outcome.ok = Outcome.ok →
      (Ev.hookPreInit ::
        (okSetupTrace defaultConfig (some 1) ++ Ev.setRefreshCallback :: Ev.hookPostInit ::
          (([] : List Ev) ++ teardownTrace defaultConfig))).count Ev.hookPreInit = 1 ∧
      (Ev.hookPreInit ::
        (okSetupTrace defaultConfig (some 1) ++ Ev.setRefreshCallback :: Ev.hookPostInit ::
          (([] : List Ev) ++ teardownTrace defaultConfig))).count Ev.hookPostInit = 1 ∧
      (Ev.hookPreInit ::
        (okSetupTrace defaultConfig (some 1) ++ Ev.setRefreshCallback :: Ev.hookPostInit ::
          (([] : List Ev) ++ teardownTrace defaultConfig))).count Ev.hookPreExitLoop = 1) :=
  c3_post_exit_hook_never_invoked defaultConfig envOkQuick 1
    (Ev.hookPreInit ::
      (okSetupTrace defaultConfig (some 1) ++ Ev.setRefreshCallback :: Ev.hookPostInit ::
        (([] : List Ev) ++ teardownTrace defaultConfig))) Outcome.ok rfl

/-- Counterexample to claim C4 as stated: in a completed default run the code
also prints the ini path to standard output and creates the settings
directory, so the ini file is not the only written artifact. -/
theorem c4_counterexample :
    (windowRun defaultConfig envOkQuick 1).map Prod.snd = some Outcome.ok ∧
    Ev.printOut (imguiIniPath defaultConfig) ∈
      ((windowRun defaultConfig envOkQuick 1).getD ([], Outcome.ok)).1 ∧
    Ev.makedirs defaultConfig.imguiIniDir ∈
      ((windowRun defaultConfig envOkQuick 1).getD ([], Outcome.ok)).1 := by
  refine ⟨rfl, ?_, ?_⟩ <;> decide

/-- Claim C4 (amended): every write-like event of every run targets only the
ini settings file path, the settings directory, the two stdout debug messages
(the ini path print and the wants-to-save print), or the two critical log
messages of the fatal paths. -/
theorem c4_written_artifacts (cfg : Config) (env : Env) (fuel : Nat) (t : List Ev) (o : Outcome)
    (h : windowRun cfg env fuel = some (t, o)) :
    t.all (writeEvOk cfg) = true := by
  cases h1 : env.glfwInitOk
  · rw [windowRun_fail cfg env fuel h1] at h
    simp only [Option.some.injEq, Prod.mk.injEq] at h
    obtain ⟨rfl, rfl⟩ := h
    rw [List.all_cons, initFail_all_writeOk]
    rfl
  · cases h2 : env.windllAvailable
    · rw [windowRun_noWindll cfg env fuel h1 h2] at h
      simp only [Option.some.injEq, Prod.mk.injEq] at h
      obtain ⟨rfl, rfl⟩ := h
      rw [List.all_cons, noWindll_all_writeOk]
      rfl
    · cases h3 : env.createWindowHandle with
      | none =>
        rw [windowRun_nullWin cfg env fuel h1 h2 h3] at h
        simp only [Option.some.injEq, Prod.mk.injEq] at h
        obtain ⟨rfl, rfl⟩ := h
        rw [List.all_cons, nullWin_all_writeOk]
        rfl
      | some w =>
        cases hl : glfwLoopIters env fuel 0 with
        | none => rw [windowRun_okNone cfg env fuel w h1 h2 h3 hl] at h; cases h
        | some lt =>
          rw [windowRun_okSome cfg env fuel w lt h1 h2 h3 hl] at h
          simp only [Option.some.injEq, Prod.mk.injEq] at h
          obtain ⟨rfl, -⟩ := h
          have hltall : lt.all (writeEvOk cfg) = true :=
            List.all_eq_true.mpr
              (fun e he => isLoopEv_writeOk cfg e (loopIters_mem env fuel 0 lt hl e he))
          rw [List.all_cons, List.all_append, okSetup_all_writeOk, List.all_cons, List.all_cons,
            List.all_append, hltall, teardown_all_writeOk]
          rfl

/-- Witness for the amended claim C4 at a completed default run. -/
theorem c4_written_artifacts_witness :
    (Ev.hookPreInit ::
        (okSetupTrace defaultConfig (some 1) ++ Ev.setRefreshCallback :: Ev.hookPostInit ::
          (([] : List Ev) ++ teardownTrace defaultConfig))).all (writeEvOk defaultConfig) = true :=
  c4_written_artifacts defaultConfig envOkQuick 1
    (Ev.hookPreInit ::
      (okSetupTrace defaultConfig (some 1) ++ Ev.setRefreshCallback :: Ev.hookPostInit ::
        (([] : List Ev) ++ teardownTrace defaultConfig))) Outcome.ok rfl

/-- Counterexample to claim C5 as stated: in a run whose renderer raises
`AttributeError` during `_draw`, the exception is caught, the iteration still
swaps buffers, and the run completes normally — so an operation does catch an
exception and continue. -/
theorem c5_counterexample :
    (windowRun defaultConfig envOneIter 2).map Prod.snd = some Outcome.ok ∧
    Ev.renderAttrError ∈ ((windowRun defaultConfig envOneIter 2).getD ([], Outcome.ok)).1 ∧
    Ev.swapBuffers ∈ ((windowRun defaultConfig envOneIter 2).getD ([], Outcome.ok)).1 := by
  refine ⟨rfl, ?_, ?_⟩ <;> decide

/-- Claim C5 (amended): exactly one recoverable handler exists — `_draw`
catches `AttributeError` from `renderer.render` and continues, so whether the
renderer raises never changes the outcome of a run; the AttributeError of the
`ctypes.windll` access, by contrast, propagates uncaught and ends the run. -/
theorem c5_catch_and_continue (cfg : Config) (env : Env) (fuel : Nat) (f g : Nat → Bool) :
    (windowRun cfg { env with renderRaises := f } fuel).map Prod.snd
      = (windowRun cfg { env with renderRaises := g } fuel).map Prod.snd ∧
    (env.glfwInitOk = true → env.windllAvailable = false →
      (windowRun cfg env fuel).map Prod.snd = some (Outcome.raised "AttributeError")) := by
  constructor
  · unfold windowRun
    rw [initGlfw_renderRaises cfg env f, initGlfw_renderRaises cfg env g]
    cases hI : initGlfw cfg env with
    | mk t o =>
      cases o with
      | ok =>
        have e1 := loopIters_isSome_renderRaises env f fuel 0
        have e2 := loopIters_isSome_renderRaises env g fuel 0
        cases hf : glfwLoopIters { env with renderRaises := f } fuel 0 with
        | none =>
          cases hg : glfwLoopIters { env with renderRaises := g } fuel 0 with
          | none => rfl
          | some lg =>
            rw [hf] at e1
            rw [hg] at e2
            have hx := e1.trans e2.symm
            simp at hx
        | some lf =>
          cases hg : glfwLoopIters { env with renderRaises := g } fuel 0 with
          | none =>
            rw [hf] at e1
            rw [hg] at e2
            have hx := e1.trans e2.symm
            simp at hx
          | some lg => rfl
      | exited c => rfl
      | raised s => rfl
  · intro h1 h2
    rw [windowRun_noWindll cfg env fuel h1 h2]
    rfl

/-- Witness for the amended claim C5: always-raising versus never-raising
renderers produce the same outcome on the default environment. -/
theorem c5_catch_and_continue_witness :
    (windowRun defaultConfig { envOkQuick with renderRaises := fun _ => true } 1).map Prod.snd
      = (windowRun defaultConfig { envOkQuick with renderRaises := fun _ => false } 1).map Prod.snd ∧
    (envOkQuick.glfwInitOk = true → envOkQuick.windllAvailable = false →
      (windowRun defaultConfig envOkQuick 1).map Prod.snd = some (Outcome.raised "AttributeError")) :=
  c5_catch_and_continue defaultConfig envOkQuick 1 (fun _ => true) (fun _ => false)

/-- Claim C6: the poll/draw loop runs an iteration for exactly each check at
which the should-close flag is unset before the first set check, produces the
concatenation of those iteration traces, and terminates exactly when the flag
becomes set: if the flag is never set within the fuel, the loop is still
running (`none`). -/
theorem c6_loop_condition (env : Env) (fuel : Nat) :
    glfwLoopIters env fuel 0 =
      (firstCloseIdx env fuel 0).map (fun n => itersTrace env 0 n) ∧
    (∀ n, firstCloseIdx env fuel 0 = some n →
      env.shouldClose n = true ∧ ∀ j, j < n → env.shouldClose j = false) ∧
    (firstCloseIdx env fuel 0 = none → ∀ j, j < fuel → env.shouldClose j = false) := by
  refine ⟨?_, ?_, ?_⟩
  · rw [loopIters_eq_firstCloseIdx env fuel 0]
    cases hfc : firstCloseIdx env fuel 0 with
    | none => rfl
    | some n => simp
  · intro n hn
    obtain ⟨-, -, hc, hmin⟩ := firstCloseIdx_some env fuel 0 n hn
    exact ⟨hc, fun j hj => hmin j (Nat.zero_le j) hj⟩
  · intro hn j hj
    exact firstCloseIdx_none env fuel 0 hn j (Nat.zero_le j) (by omega)

/-- Witness for claim C6 on the immediately-closing environment. -/
theorem c6_loop_condition_witness :
    glfwLoopIters envOkQuick 1 0 =
      (firstCloseIdx envOkQuick 1 0).map (fun n => itersTrace envOkQuick 0 n) ∧
    (∀ n, firstCloseIdx envOkQuick 1 0 = some n →
      envOkQuick.shouldClose n = true ∧ ∀ j, j < n → envOkQuick.shouldClose j = false) ∧
    (firstCloseIdx envOkQuick 1 0 = none → ∀ j, j < 1 → envOkQuick.shouldClose j = false) :=
  c6_loop_condition envOkQuick 1

/-- Claim C7: constructing an `Icon` from any ordered list of paths decodes
each path exactly once (the decode-call trace equals the path list) and
`glfw_images` returns the decoded images in path order, one per path. -/
theorem c7_icon_decodes_in_order (α : Type) (imageOpen : String → α) (paths : List String) :
    (Icon.ofPaths imageOpen paths).1.glfw_images = paths.map imageOpen ∧
    (Icon.ofPaths imageOpen paths).2 = paths ∧
    (Icon.ofPaths imageOpen paths).1.glfw_images.length = paths.length := by
  simp only [Icon.ofPaths, Icon.glfw_images]
  rw [iconFold imageOpen paths [] []]
  simp

/-- Claim C8: whenever `glfw.init` succeeds on a platform without
`ctypes.windll`, the run raises `AttributeError` right after `glfw.init` and
before any window is created. -/
theorem c8_windll_raises (cfg : Config) (env : Env) (fuel : Nat)
    (h1 : env.glfwInitOk = true) (h2 : env.windllAvailable = false) :
    windowRun cfg env fuel =
      some ([Ev.hookPreInit, Ev.glfwInit], Outcome.raised "AttributeError") ∧
    (∀ w ht s, Ev.createWindow w ht s ∉ [Ev.hookPreInit, Ev.glfwInit]) := by
  refine ⟨?_, ?_⟩
  · rw [windowRun_noWindll cfg env fuel h1 h2]
    rfl
  · intro w ht s
    simp

/-- Witness for claim C8 on the no-windll environment. -/
theorem c8_windll_raises_witness :
    windowRun defaultConfig envNoWindll 0 =
      some ([Ev.hookPreInit, Ev.glfwInit], Outcome.raised "AttributeError") ∧
    (∀ w ht s, Ev.createWindow w ht s ∉ [Ev.hookPreInit, Ev.glfwInit]) :=
  c8_windll_raises defaultConfig envNoWindll 0 rfl rfl

/-- Claim C9: when `glfw.create_window` returns a null handle, the run still
calls `glfw.make_context_current` on the null handle (and
`glfw.set_window_icon` when an icon is configured) before the failure check
that terminates glfw, logs and exits with code 1 — visible in the exact trace
below, where those calls precede the terminate/log/exit suffix. -/
theorem c9_null_window_pre_check_calls (cfg : Config) (env : Env) (fuel : Nat)
    (h1 : env.glfwInitOk = true) (h2 : env.windllAvailable = true)
    (h3 : env.createWindowHandle = none) :
    windowRun cfg env fuel =
      some (([Ev.hookPreInit, Ev.glfwInit, Ev.setAppUserModelID (appUserModelID cfg)] ++
          hintEvents cfg ++
          [Ev.createWindow cfg.windowWidth cfg.windowHeight cfg.windowTitle,
           Ev.makeContextCurrent none] ++
          iconEvents cfg none ++
          [Ev.glfwTerminate, Ev.logCritical "Could not initialize Window", Ev.exitCall 1]),
        Outcome.exited 1) ∧
    (∀ ic, cfg.windowIcon = some ic →
      iconEvents cfg none = [Ev.setWindowIcon none ic.glfw_images.length ic.glfw_images]) := by
  refine ⟨?_, ?_⟩
  · rw [windowRun_nullWin cfg env fuel h1 h2 h3]
    simp [nullWinTrace, preTrace]
  · intro ic hic
    simp [iconEvents, hic]

/-- Witness for claim C9 on the icon-bearing configuration and a null window
handle. -/
theorem c9_null_window_pre_check_calls_witness :
    windowRun cfgIcon envNullWindow 0 =
      some (([Ev.hookPreInit, Ev.glfwInit, Ev.setAppUserModelID (appUserModelID cfgIcon)] ++
          hintEvents cfgIcon ++
          [Ev.createWindow cfgIcon.windowWidth cfgIcon.windowHeight cfgIcon.windowTitle,
           Ev.makeContextCurrent none] ++
          iconEvents cfgIcon none ++
          [Ev.glfwTerminate, Ev.logCritical "Could not initialize Window", Ev.exitCall 1]),
        Outcome.exited 1) ∧
    (∀ ic, cfgIcon.windowIcon = some ic →
      iconEvents cfgIcon none = [Ev.setWindowIcon none ic.glfw_images.length ic.glfw_images]) :=
  c9_null_window_pre_check_calls cfgIcon envNullWindow 0 rfl rfl rfl

/-- Claim C10: for every configuration with `_IMGUI_USE_INI` set to `False`,
a completed run never loads ini settings, clears the imgui ini file name, and
yet the default `_pre_exit_loop` still saves the settings file to
`_imgui_ini_path()` when the loop exits. -/
theorem c10_save_unconditional (cfg : Config) (env : Env) (fuel : Nat) (t : List Ev)
    (hui : cfg.imguiUseIni = false) (h : windowRun cfg env fuel = some (t, Outcome.ok)) :
    t.all (fun e => !(isLoadIni e)) = true ∧
    Ev.setIniFileName none ∈ t ∧
    Ev.saveIni (imguiIniPath cfg) ∈ t := by
  cases h1 : env.glfwInitOk
  · rw [windowRun_fail cfg env fuel h1] at h
    simp at h
  · cases h2 : env.windllAvailable
    · rw [windowRun_noWindll cfg env fuel h1 h2] at h
      simp at h
    · cases h3 : env.createWindowHandle with
      | none =>
        rw [windowRun_nullWin cfg env fuel h1 h2 h3] at h
        simp at h
      | some w =>
        cases hl : glfwLoopIters env fuel 0 with
        | none => rw [windowRun_okNone cfg env fuel w h1 h2 h3 hl] at h; cases h
        | some lt =>
          rw [windowRun_okSome cfg env fuel w lt h1 h2 h3 hl] at h
          simp only [Option.some.injEq, Prod.mk.injEq] at h
          obtain ⟨rfl, -⟩ := h
          refine ⟨?_, ?_, ?_⟩
          · have hltall : lt.all (fun e => !(isLoadIni e)) = true :=
              List.all_eq_true.mpr (fun e he => by
                simp [isLoopEv_not_loadIni e (loopIters_mem env fuel 0 lt hl e he)])
            have htd : (teardownTrace cfg).all (fun e => !(isLoadIni e)) = true := by
              simp [teardownTrace, isLoadIni]
            rw [List.all_cons, List.all_append, okSetup_no_loadIni cfg (some w) hui,
              List.all_cons, List.all_cons, List.all_append, hltall, htd]
            rfl
          · simp [okSetupTrace, preTrace, iniEvents, hui]
          · simp [teardownTrace]

/-- Witness for claim C10 on the ini-disabled configuration. -/
theorem c10_save_unconditional_witness :
    (Ev.hookPreInit ::
        (okSetupTrace cfgNoIni (some 1) ++ Ev.setRefreshCallback :: Ev.hookPostInit ::
          (([] : List Ev) ++ teardownTrace cfgNoIni))).all (fun e => !(isLoadIni e)) = true ∧
    Ev.setIniFileName none ∈ Ev.hookPreInit ::
        (okSetupTrace cfgNoIni (some 1) ++ Ev.setRefreshCallback :: Ev.hookPostInit ::
          (([] : List Ev) ++ teardownTrace cfgNoIni)) ∧
    Ev.saveIni (imguiIniPath cfgNoIni) ∈ Ev.hookPreInit ::
        (okSetupTrace cfgNoIni (some 1) ++ Ev.setRefreshCallback :: Ev.hookPostInit ::
          (([] : List Ev) ++ teardownTrace cfgNoIni)) :=
  c10_save_unconditional cfgNoIni envOkQuick 1
    (Ev.hookPreInit ::
      (okSetupTrace cfgNoIni (some 1) ++ Ev.setRefreshCallback :: Ev.hookPostInit ::
        (([] : List Ev) ++ teardownTrace cfgNoIni))) rfl rfl

end Amgui
